import Mathlib

/-!
Shallow embedding of the FEA-MCP server (GreatApo/FEA-MCP) for checking the
natural-language specification against the code.

Source files embedded:
  - src/config.py  : configuration loading with a built-in default fallback
  - src/server.py  : transport-facing tool wrappers and backend selection
  - src/Etabs.py   : the ETABS adapter (COM calls through SapModel)
  - src/Lusas.py   : the LUSAS adapter (COM calls through the modeller)

Modelling conventions:
  - Python floats are modelled as rationals; the claims under check do not
    depend on floating-point rounding, only on coordinates passing through
    unchanged.  Numeric rendering inside message strings is Lean toString of
    the rational, which differs from Python float repr only in presentation
    (for example 1 versus 1.0); no claim depends on that rendering.
  - A raised Python exception is `Except.error` carrying the text of str(e);
    a normal return is `Except.ok`.  A function whose source cannot raise is
    given a plain (non-Except) result type.
  - The external COM surface (ETABS SapModel, LUSAS modeller) is an explicit
    environment record of fallible calls: each field is the value/behaviour
    the running application would provide, so theorems quantify over every
    behaviour of the backend.  Calls made to the environment are recorded in
    an event trace so that frame and "no call was attempted" properties are
    statable.
  - Deterministic environments: an environment field models the result the
    external application gives at that call site during the one embedded
    call under study.
-/

set_option autoImplicit false

namespace FEA

/-- A raised Python exception, carrying the text `str(e)`. -/
structure Exn where
  msg : String
deriving Repr, DecidableEq

/-- Coordinate values (Python floats) are modelled as rationals. -/
abbrev Coord := ℚ

/-- Python `str.upper()` (ASCII arguments only arise here). -/
def pyUpper (s : String) : String := String.mk (s.data.map Char.toUpper)

/-- Python `str.lower()` (ASCII arguments only arise here). -/
def pyLower (s : String) : String := String.mk (s.data.map Char.toLower)

/-- Python `str.startswith(p)`. -/
def pyStartsWith (s p : String) : Bool := p.data.isPrefixOf s.data

/-!
## Geometry request records

`GeomObject` from src/Etabs.py lines 13-24 and src/Lusas.py lines 13-26:
both classes have the fields `type`, `xs`, `ys`, `zs`, `id` (the LUSAS one
adds `selected` and uses an integer id, the ETABS one a string id).  For the
claims only the common request shape matters; ids are kept as strings and
the LUSAS `selected` flag carried along with a default.
-/

/-- A backend-agnostic description of one entity (request or read-back). -/
structure GeomObject where
  type : String
  xs : List Coord
  ys : List Coord
  zs : List Coord
  id : String := ""
  selected : Bool := false
deriving Repr, DecidableEq

/-!
## Configuration (src/config.py)

`Config.__init__` (lines 17-36) loads config.json; on any exception it logs
and installs the built-in default data.  The outcome of the file read and
JSON parse is a parameter of type `Except Exn ConfigData`.  The `fea.version`
JSON value is kept as the rational value Python float() would produce from
the stored string (exact for the default "21.1" after formatting).
-/

/-- The configuration data held in `Config.data`. -/
structure ConfigData where
  serverName : String
  serverVersion : String
  feaSoftware : String
  feaVersionNum : ℚ
deriving Repr, DecidableEq

/-- The default configuration installed when loading fails
(src/config.py lines 27-36). -/
def defaultConfigData : ConfigData :=
  { serverName := "FEA MCP"
    serverVersion := "1.0.0"
    feaSoftware := "LUSAS"
    feaVersionNum := 21.1 }

/-- `Config.__init__` (src/config.py lines 17-36): the constructor never
raises; a failed load falls back to `defaultConfigData`. -/
def configInit (loaded : Except Exn ConfigData) : ConfigData :=
  match loaded with
  | .ok d => d
  | .error _ => defaultConfigData

/-- Python `f"{v:.1f}"` on a nonnegative value: one decimal, round half up
(half-way cases cannot arise from the values used here). -/
def formatFixed1 (q : ℚ) : String :=
  let t : ℤ := ⌊q * 10 + 1 / 2⌋
  toString (t / 10) ++ "." ++ toString (t % 10)

/-- `Config.feaName` (src/config.py lines 46-48). -/
def ConfigData.feaName (c : ConfigData) : String :=
  pyUpper c.feaSoftware

/-- `Config.feaVersion` (src/config.py lines 50-53). -/
def ConfigData.feaVersion (c : ConfigData) : String :=
  formatFixed1 c.feaVersionNum

/-!
## ETABS surface reconstruction (src/Etabs.py)

`Etabs.get_areas` (lines 332-351) and the surface stage of
`Etabs.get_geometries` (lines 270-279) slice the flat concatenated
coordinate arrays returned by `AreaObj.GetAllAreas` with a per-surface
delimiter array: `xs = x_coords[i : j + 1]`, then `i = j + 1`.
-/

/-- The slicing loop of `Etabs.get_areas`: Python `x_coords[i : j + 1]` is
drop `i` then take `j + 1 - i`, and the cursor advances to `j + 1`. -/
def sliceRings (xs : List Coord) (delim : List Nat) (i : Nat) : List (List Coord) :=
  match delim with
  | [] => []
  | j :: rest => ((xs.drop i).take (j + 1 - i)) :: sliceRings xs rest (j + 1)

/-- The start index of ring `k` as the spec words it: previous delimiter
plus one, with the cursor starting at zero for the first ring. -/
def ringStart (delim : List Nat) (k : Nat) : Nat :=
  match k with
  | 0 => 0
  | k + 1 => delim.getD k 0 + 1

/-- `ringStart` generalized over the starting cursor, for the induction on
the delimiter list. -/
def ringStartFrom (i : Nat) (delim : List Nat) (k : Nat) : Nat :=
  match k with
  | 0 => i
  | k + 1 => delim.getD k 0 + 1

/-!
## ETABS session manager (src/Etabs.py lines 26-76)

`Etabs.set_modeller` never raises: every fallible call on the attach path
sits inside the `try` whose handler returns `False`, and the held-handle
branch only evaluates `False and createModel` (statically false, no COM
call) before returning `True`.  State is the optional `SapModel` handle.
-/

/-- An opaque handle to a live COM object. -/
abbrev Handle := Nat

/-- The `Etabs` adapter state: the held `SapModel` reference (line 28). -/
structure EtabsState where
  sapModel : Option Handle
deriving Repr, DecidableEq

/-- One call made into the ETABS COM surface (for trace reasoning). -/
inductive EtabsEvent where
  | coInitialize
  | createHelper
  | getObject
  | applicationStart
  | initializeNewModel
  | newBlank
  | getOAPIVersion
  | coUninit
  | addCartesian
  | addFrame
  | addArea
  | refreshView
  | getPresentUnits
  | getAllPoints
  | getAllFrames
  | getAllAreas
  | progress (i n : Nat)
deriving Repr, DecidableEq

/-- The behaviour of the ETABS automation surface during one
`set_modeller` attach attempt.  `getObjectFirst`/`getObjectSecond` are the
two textual calls to `helper.GetObject` (lines 55 and 60); `none` models a
falsy return. -/
structure EtabsAttachEnv where
  createHelper : Except Exn Unit
  getObjectFirst : Except Exn (Option Handle)
  getObjectSecond : Except Exn (Option Handle)
  applicationStart : Except Exn Unit
  initializeNewModel : Except Exn Unit
  newBlank : Except Exn Unit
  getOAPIVersion : Except Exn Int

/-- The attach path of `Etabs.set_modeller` (lines 49-76): CoInitialize,
helper creation, GetObject, optional relaunch with optional blank model,
version log; any exception inside the `try` yields `False` with the state
unchanged, success installs the new handle. -/
def etabsAttach (env : EtabsAttachEnv) (createModel : Bool) (st : EtabsState) :
    Bool × EtabsState × List EtabsEvent :=
  let pre : List EtabsEvent := [.coInitialize, .createHelper]
  match env.createHelper with
  | .error _ => (false, st, pre ++ [.coUninit])
  | .ok _ =>
    match env.getObjectFirst with
    | .error _ => (false, st, pre ++ [.getObject, .coUninit])
    | .ok (some h) =>
      match env.getOAPIVersion with
      | .error _ => (false, st, pre ++ [.getObject, .getOAPIVersion, .coUninit])
      | .ok _ =>
        (true, { sapModel := some h }, pre ++ [.getObject, .getOAPIVersion, .coUninit])
    | .ok none =>
      match env.getObjectSecond with
      | .error _ => (false, st, pre ++ [.getObject, .getObject, .coUninit])
      | .ok none =>
        -- EtabsObject is still None, so `None.ApplicationStart()` raises
        -- AttributeError; the handler returns False.
        (false, st, pre ++ [.getObject, .getObject, .coUninit])
      | .ok (some h) =>
        match env.applicationStart with
        | .error _ =>
          (false, st, pre ++ [.getObject, .getObject, .applicationStart, .coUninit])
        | .ok _ =>
          if createModel then
            match env.initializeNewModel with
            | .error _ =>
              (false, st,
                pre ++ [.getObject, .getObject, .applicationStart, .initializeNewModel,
                  .coUninit])
            | .ok _ =>
              match env.newBlank with
              | .error _ =>
                (false, st,
                  pre ++ [.getObject, .getObject, .applicationStart, .initializeNewModel,
                    .newBlank, .coUninit])
              | .ok _ =>
                match env.getOAPIVersion with
                | .error _ =>
                  (false, st,
                    pre ++ [.getObject, .getObject, .applicationStart, .initializeNewModel,
                      .newBlank, .getOAPIVersion, .coUninit])
                | .ok _ =>
                  (true, { sapModel := some h },
                    pre ++ [.getObject, .getObject, .applicationStart, .initializeNewModel,
                      .newBlank, .getOAPIVersion, .coUninit])
          else
            match env.getOAPIVersion with
            | .error _ =>
              (false, st,
                pre ++ [.getObject, .getObject, .applicationStart, .getOAPIVersion,
                  .coUninit])
            | .ok _ =>
              (true, { sapModel := some h },
                pre ++ [.getObject, .getObject, .applicationStart, .getOAPIVersion,
                  .coUninit])

/-- `Etabs.set_modeller` (lines 31-76).  With a held handle the guard
`if False and createModel` (line 41) is statically false: the method
returns `True` at once, makes no COM call, never probes the handle and
never initializes a model.  Without a handle it runs the attach path. -/
def etabsSetModeller (env : EtabsAttachEnv) (createModel : Bool) (st : EtabsState) :
    Bool × EtabsState × List EtabsEvent :=
  match st.sapModel with
  | some _ => (true, st, [])
  | none => etabsAttach env createModel st

/-!
## ETABS adapter operations (src/Etabs.py lines 85-351)

Each COM call an operation makes is an environment field returning
`Except Exn`; the chain `self.SapModel.X.Y(...)` is one field per call
site.  Operations return `Except Exn` results because the ETABS creation
primitives and the units query make backend calls outside any `try`.
-/

/-- The tuple returned by `AreaObj.GetAllAreas` (line 339): number of
areas, names, design types, two ignored components, the per-surface
delimiter array and the flat coordinate arrays. -/
structure AllAreasData where
  n : Nat
  names : List String
  design : List String
  f4 : List String
  delim : List Nat
  f6 : List String
  xs : List Coord
  ys : List Coord
  zs : List Coord
  f10 : List String

/-- The behaviour of the ETABS `SapModel` surface for the operations. -/
structure EtabsEnv where
  addCartesian : Coord → Coord → Coord → Except Exn (String × Int)
  addFrameByCoord :
    Coord → Coord → Coord → Coord → Coord → Coord → Except Exn (String × Int)
  addAreaByCoord :
    List Coord → List Coord → List Coord →
      Except Exn (List Coord × List Coord × List Coord × String × Int)
  refreshView : Except Exn Int
  getPresentUnits : Except Exn Int
  getAllPoints :
    Except Exn (Nat × List String × List Coord × List Coord × List Coord × List String)
  getAllAreas : Except Exn AllAreasData

/-- `Etabs.create_joint` (lines 111-127).  The connect failure is returned
as a string, but `AddCartesian` and `RefreshView` run outside any `try`:
their exceptions propagate. -/
def etabsCreateJoint (aenv : EtabsAttachEnv) (env : EtabsEnv) (st : EtabsState)
    (x y z : Coord) : Except Exn String × EtabsState × List EtabsEvent :=
  let r := etabsSetModeller aenv true st
  let st1 := r.2.1
  let evs := r.2.2
  if r.1 = false then (.ok "Error: Cannot connect on ETABS.", st1, evs)
  else
    match env.addCartesian x y z with
    | .error e => (.error e, st1, evs ++ [.addCartesian])
    | .ok (pName, ret) =>
      if ret ≠ 0 then
        (.ok s!"Error adding joint ({x}, {y}, {z}) to the model.", st1,
          evs ++ [.addCartesian])
      else
        match env.refreshView with
        | .error e => (.error e, st1, evs ++ [.addCartesian, .refreshView])
        | .ok _ =>
          (.ok s!"Joint created successfully with ID {pName}.", st1,
            evs ++ [.addCartesian, .refreshView])

/-- `Etabs.create_frame` (lines 129-151): same shape as `create_joint`. -/
def etabsCreateFrame (aenv : EtabsAttachEnv) (env : EtabsEnv) (st : EtabsState)
    (xi yi zi xj yj zj : Coord) : Except Exn String × EtabsState × List EtabsEvent :=
  let r := etabsSetModeller aenv true st
  let st1 := r.2.1
  let evs := r.2.2
  if r.1 = false then (.ok "Error: Cannot connect on ETABS.", st1, evs)
  else
    match env.addFrameByCoord xi yi zi xj yj zj with
    | .error e => (.error e, st1, evs ++ [.addFrame])
    | .ok (fName, ret) =>
      if ret ≠ 0 then
        (.ok s!"Error adding line/frame ({xi}, {yi}, {zi}) - ({xj}, {yj}, {zj}) to the model.",
          st1, evs ++ [.addFrame])
      else
        match env.refreshView with
        | .error e => (.error e, st1, evs ++ [.addFrame, .refreshView])
        | .ok _ =>
          (.ok s!"Frame created successfully with ID {fName}.", st1,
            evs ++ [.addFrame, .refreshView])

/-- `Etabs.create_area` (lines 153-172): `AddByCoord(len(x), x, y, z)`. -/
def etabsCreateArea (aenv : EtabsAttachEnv) (env : EtabsEnv) (st : EtabsState)
    (x y z : List Coord) : Except Exn String × EtabsState × List EtabsEvent :=
  let r := etabsSetModeller aenv true st
  let st1 := r.2.1
  let evs := r.2.2
  if r.1 = false then (.ok "Error: Cannot connect on ETABS.", st1, evs)
  else
    match env.addAreaByCoord x y z with
    | .error e => (.error e, st1, evs ++ [.addArea])
    | .ok (_, _, _, aName, ret) =>
      if ret ≠ 0 then
        (.ok "Error adding surface/area to the model.", st1, evs ++ [.addArea])
      else
        match env.refreshView with
        | .error e => (.error e, st1, evs ++ [.addArea, .refreshView])
        | .ok _ =>
          (.ok s!"Area created successfully with ID {aName}.", st1,
            evs ++ [.addArea, .refreshView])

/-- The fixed table of `Etabs.get_units` (line 95). -/
def presetUnits : List String :=
  ["lb, in, F", "lb, ft, F", "kip, in, F", "kip, ft, F", "kN, mm, C", "kN, m, C",
   "kgf, mm, C", "kgf, m, C", "N, mm, C", "N, m, C", "Ton, mm, C", "Ton, m, C",
   "kN, cm, C", "kgf, cm, C", "N, cm, C", "Ton, cm, C"]

/-- `Etabs.get_units` (lines 85-99).  `GetPresentUnits` runs outside any
`try`: its exception propagates.  An out-of-range code yields the
unprefixed string "Unknown units". -/
def etabsGetUnits (aenv : EtabsAttachEnv) (env : EtabsEnv) (st : EtabsState) :
    Except Exn String × EtabsState × List EtabsEvent :=
  let r := etabsSetModeller aenv true st
  let st1 := r.2.1
  let evs := r.2.2
  if r.1 = false then (.ok "Error: Cannot connect on ETABS.", st1, evs)
  else
    match env.getPresentUnits with
    | .error e => (.error e, st1, evs ++ [.getPresentUnits])
    | .ok u =>
      if u < 1 ∨ u > 16 then (.ok "Unknown units", st1, evs ++ [.getPresentUnits])
      else
        let nm := presetUnits.getD (u.toNat - 1) ""
        (.ok s!"Units of force, length and temperature are set to {nm}", st1,
          evs ++ [.getPresentUnits])

/-- The Python return type `list[GeomObject] | str` of the enumeration
operations. -/
inductive EnumRet where
  | geoms (gs : List GeomObject)
  | msg (s : String)
deriving Repr, DecidableEq

/-- The Python return type `list[str] | str` of the batch creation
operations (a plain string is returned when the batch never starts). -/
inductive BatchRet where
  | msg (s : String)
  | results (rs : List String)
deriving Repr, DecidableEq

/-- One step of the point loop of `Etabs.get_points` (lines 298-300):
`GeomObject(type="point", xs=[ptX[i]], ys=[ptY[i]], zs=[ptZ[i]],
id=ptNames[i])`; a missing index raises IndexError. -/
def etabsPointAt (names : List String) (xs ys zs : List Coord) (i : Nat) :
    Except Exn GeomObject :=
  match xs.get? i, ys.get? i, zs.get? i, names.get? i with
  | some x, some y, some z, some nm =>
    .ok { type := "point", xs := [x], ys := [y], zs := [z], id := nm }
  | _, _, _, _ => .error { msg := "list index out of range" }

/-- The whole `for i in range(numberPts)` loop of `Etabs.get_points`. -/
def etabsPointsList (n : Nat) (names : List String) (xs ys zs : List Coord) :
    Except Exn (List GeomObject) :=
  (List.range n).mapM (etabsPointAt names xs ys zs)

/-- `Etabs.get_points` (lines 291-304).  When `set_modeller` fails the
return statement evaluates `self.versionString`, an attribute `Etabs`
never defines (only `Lusas.__init__` sets one), so the operation raises
AttributeError instead of returning its connectivity-error string.  The
enumeration body is inside `try`: a backend exception becomes the string
"Error: Failed getting point.". -/
def etabsGetPoints (aenv : EtabsAttachEnv) (env : EtabsEnv) (st : EtabsState) :
    Except Exn EnumRet × EtabsState × List EtabsEvent :=
  let r := etabsSetModeller aenv true st
  let st1 := r.2.1
  let evs := r.2.2
  if r.1 = false then
    (.error { msg := "'Etabs' object has no attribute 'versionString'" }, st1, evs)
  else
    match env.getAllPoints with
    | .error _ => (.ok (.msg "Error: Failed getting point."), st1, evs ++ [.getAllPoints])
    | .ok (n, names, xs, ys, zs, _) =>
      match etabsPointsList n names xs ys zs with
      | .ok gs => (.ok (.geoms gs), st1, evs ++ [.getAllPoints])
      | .error _ => (.ok (.msg "Error: Failed getting point."), st1, evs ++ [.getAllPoints])

/-- The area loop of `Etabs.get_areas` (lines 340-347): `names[count]` can
raise IndexError; the coordinate slices clamp like Python slicing. -/
def etabsAreasList (names : List String) (xs ys zs : List Coord)
    (delim : List Nat) (i : Nat) (count : Nat) : Except Exn (List GeomObject) :=
  match delim with
  | [] => .ok []
  | j :: rest =>
    match names.get? count with
    | none => .error { msg := "list index out of range" }
    | some nm =>
      let ring : GeomObject :=
        { type := "surface"
          xs := (xs.drop i).take (j + 1 - i)
          ys := (ys.drop i).take (j + 1 - i)
          zs := (zs.drop i).take (j + 1 - i)
          id := nm }
      match etabsAreasList names xs ys zs rest (j + 1) (count + 1) with
      | .ok gs => .ok (ring :: gs)
      | .error e => .error e

/-- `Etabs.get_areas` (lines 332-351): connect check (with the same
`versionString` AttributeError as `get_points` on failure), then
`GetAllAreas` and the delimiter slicing loop inside `try`. -/
def etabsGetAreas (aenv : EtabsAttachEnv) (env : EtabsEnv) (st : EtabsState) :
    Except Exn EnumRet × EtabsState × List EtabsEvent :=
  let r := etabsSetModeller aenv true st
  let st1 := r.2.1
  let evs := r.2.2
  if r.1 = false then
    (.error { msg := "'Etabs' object has no attribute 'versionString'" }, st1, evs)
  else
    match env.getAllAreas with
    | .error _ => (.ok (.msg "Error: Failed getting areas."), st1, evs ++ [.getAllAreas])
    | .ok d =>
      match etabsAreasList d.names d.xs d.ys d.zs d.delim 0 0 with
      | .ok gs => (.ok (.geoms gs), st1, evs ++ [.getAllAreas])
      | .error _ => (.ok (.msg "Error: Failed getting areas."), st1, evs ++ [.getAllAreas])

/-- One item of `Etabs.create_objects_by_coordinates` (lines 219-232):
dispatch on `obj.type.lower()`; the per-item `try` turns any exception
(IndexError from the coordinate accesses, or one propagating out of the
creation primitive) into `"Error processing {type}: {str(e)}"`; a type
outside {point, line, surface} yields the fixed unsupported-type string
without any backend call. -/
def etabsItem (aenv : EtabsAttachEnv) (env : EtabsEnv) (st : EtabsState)
    (obj : GeomObject) : String × EtabsState × List EtabsEvent :=
  let t := pyLower obj.type
  if t = "point" then
    match obj.xs.get? 0, obj.ys.get? 0, obj.zs.get? 0 with
    | some x, some y, some z =>
      let r := etabsCreateJoint aenv env st x y z
      match r.1 with
      | .ok s => (s, r.2.1, r.2.2)
      | .error e =>
        let m := e.msg
        (s!"Error processing {t}: {m}", r.2.1, r.2.2)
    | _, _, _ => (s!"Error processing {t}: list index out of range", st, [])
  else if t = "line" then
    match obj.xs.get? 0, obj.ys.get? 0, obj.zs.get? 0,
        obj.xs.get? 1, obj.ys.get? 1, obj.zs.get? 1 with
    | some x1, some y1, some z1, some x2, some y2, some z2 =>
      let r := etabsCreateFrame aenv env st x1 y1 z1 x2 y2 z2
      match r.1 with
      | .ok s => (s, r.2.1, r.2.2)
      | .error e =>
        let m := e.msg
        (s!"Error processing {t}: {m}", r.2.1, r.2.2)
    | _, _, _, _, _, _ => (s!"Error processing {t}: list index out of range", st, [])
  else if t = "surface" then
    let r := etabsCreateArea aenv env st obj.xs obj.ys obj.zs
    match r.1 with
    | .ok s => (s, r.2.1, r.2.2)
    | .error e =>
      let m := e.msg
      (s!"Error processing {t}: {m}", r.2.1, r.2.2)
  else (s!"Error: Unsupported type '{t}'.", st, [])

/-- The item loop of `Etabs.create_objects_by_coordinates` (lines
213-232): progress is reported before each item, the per-item outcome is
appended, and the loop continues past failures. -/
def etabsLoop (aenv : EtabsAttachEnv) (env : EtabsEnv) (st : EtabsState)
    (objs : List GeomObject) (i n : Nat) :
    List String × EtabsState × List EtabsEvent :=
  match objs with
  | [] => ([], st, [])
  | o :: rest =>
    let r := etabsItem aenv env st o
    let r2 := etabsLoop aenv env r.2.1 rest (i + 1) n
    (r.1 :: r2.1, r2.2.1, .progress i n :: (r.2.2 ++ r2.2.2))

/-- `Etabs.create_objects_by_coordinates` (lines 196-235).  The
connectivity-failure return (line 211) evaluates the undefined
`self.versionString` and raises AttributeError.  The outer `try` (lines
214-233) only guards progress reporting and list traversal, which cannot
raise in this embedding, so its handler path does not arise; every
backend failure is handled per item. -/
def etabsBatch (aenv : EtabsAttachEnv) (env : EtabsEnv) (st : EtabsState)
    (objs : List GeomObject) : Except Exn BatchRet × EtabsState × List EtabsEvent :=
  let r := etabsSetModeller aenv true st
  let st1 := r.2.1
  let evs := r.2.2
  if r.1 = false then
    (.error { msg := "'Etabs' object has no attribute 'versionString'" }, st1, evs)
  else
    let r2 := etabsLoop aenv env st1 objs 0 objs.length
    (.ok (.results r2.1), r2.2.1, evs ++ r2.2.2)

/-!
## LUSAS session manager (src/Lusas.py lines 28-58)

`Lusas.set_modeller` probes a held handle with `existsDatabase()` inside a
`try`: a probe exception discards the handle and falls through to
reattachment.  `GetActiveObject` failure returns `False`.  The probe after
a successful attach (line 56) is NOT inside any `try`: an exception there
propagates out of `set_modeller`, so the LUSAS embedding returns
`Except Exn Bool`.
-/

/-- The `Lusas` adapter state: the version string set by the constructor
and the held modeller reference (lines 29-31). -/
structure LusasState where
  versionString : String
  modeller : Option Handle
deriving Repr, DecidableEq

/-- One call made into the LUSAS COM surface (for trace reasoning). -/
inductive LusasEvent where
  | existsDatabase
  | newProject
  | getActiveObject
  | createPointDb
  | createLineDb
  | createArcDb
  | createSplineDb
  | createSurfaceDb
  | beginBatch
  | closeBatch
  | scaleToFit
  | createTransAttr
  | createRotAttr
  | sweepCall
  | deleteAttr (a : Nat)
  | getObjects
  | progress (i n : Nat)
deriving Repr, DecidableEq

/-- The behaviour of the LUSAS automation surface.  Each adapter-level
call chain (geometryData setup plus the db creation call plus getObjects
plus getID) is collapsed into one fallible call returning the new id,
since every claim under check only depends on whether the chain raised. -/
structure LusasEnv where
  existsDatabase : Handle → Except Exn Bool
  newProject : Handle → Except Exn Unit
  getActiveObject : Except Exn Handle
  createPointDb : Coord → Coord → Coord → Except Exn Int
  createLineDb : Coord → Coord → Coord → Coord → Coord → Coord → Except Exn Int
  createArcDb :
    Coord → Coord → Coord → Coord → Coord → Coord → Coord → Coord → Coord →
      Except Exn Int
  createSplineDb : List Coord → List Coord → List Coord → Bool → Except Exn Int
  createSurfaceDb : List Coord → List Coord → List Coord → Except Exn Int
  beginBatch : Except Exn Unit
  closeBatch : Except Exn Unit
  scaleToFit : Except Exn Unit
  createTransAttr : Except Exn Nat
  createRotYZ : Except Exn Nat
  createRotXZ : Except Exn Nat
  createRotXY : Except Exn Nat
  sweepCall : Except Exn Nat
  getObjectsOf : Nat → Except Exn (List Int)
  deleteAttr : Nat → Except Exn Unit

/-- The reattachment path of `Lusas.set_modeller` (lines 45-58), entered
with the held handle already discarded and `evs` the probe events so far.
`GetActiveObject` failure returns `False`; after a successful attach the
probe on line 56 runs outside any `try`, so its exception (and a
`newProject` exception there) propagates. -/
def lusasAttach (env : LusasEnv) (createModel : Bool) (st : LusasState)
    (evs : List LusasEvent) : Except Exn Bool × LusasState × List LusasEvent :=
  match env.getActiveObject with
  | .error _ => (.ok false, st, evs ++ [.getActiveObject])
  | .ok h =>
    let st1 : LusasState := { st with modeller := some h }
    match env.existsDatabase h with
    | .error e => (.error e, st1, evs ++ [.getActiveObject, .existsDatabase])
    | .ok b =>
      if !b && createModel then
        match env.newProject h with
        | .error e =>
          (.error e, st1, evs ++ [.getActiveObject, .existsDatabase, .newProject])
        | .ok _ =>
          (.ok true, st1, evs ++ [.getActiveObject, .existsDatabase, .newProject])
      else (.ok true, st1, evs ++ [.getActiveObject, .existsDatabase])

/-- `Lusas.set_modeller` (lines 34-58).  Held handle: probe inside `try`;
probe success returns `True` (creating a project first when the database
is missing and `createModel` holds); any probe exception discards the
handle and falls through to one reattachment. -/
def lusasSetModeller (env : LusasEnv) (createModel : Bool) (st : LusasState) :
    Except Exn Bool × LusasState × List LusasEvent :=
  match st.modeller with
  | some h =>
    match env.existsDatabase h with
    | .ok b =>
      if !b && createModel then
        match env.newProject h with
        | .ok _ => (.ok true, st, [.existsDatabase, .newProject])
        | .error _ =>
          lusasAttach env createModel { st with modeller := none }
            [.existsDatabase, .newProject]
      else (.ok true, st, [.existsDatabase])
    | .error _ =>
      lusasAttach env createModel { st with modeller := none } [.existsDatabase]
  | none => lusasAttach env createModel st []

/-!
## LUSAS adapter operations (src/Lusas.py lines 61-708)

Every operation starts with `if not self.set_modeller(): return error`
(outside its `try`), then runs its body inside `try`, converting any
exception into a fixed "Error: ..." string.
-/

/-- `Lusas.create_point` (lines 77-100). -/
def lusasCreatePoint (env : LusasEnv) (st : LusasState) (x y z : Coord) :
    Except Exn String × LusasState × List LusasEvent :=
  let r := lusasSetModeller env true st
  match r.1 with
  | .error e => (.error e, r.2.1, r.2.2)
  | .ok false =>
    let v := (r.2.1).versionString
    (.ok s!"Error: Cannot connect on LUSAS version {v}.", r.2.1, r.2.2)
  | .ok true =>
    match env.createPointDb x y z with
    | .ok pid =>
      (.ok s!"Point created successfully with ID {pid}.", r.2.1,
        r.2.2 ++ [.createPointDb])
    | .error _ =>
      (.ok "Error: Failed to create point.", r.2.1, r.2.2 ++ [.createPointDb])

/-- `Lusas.create_line_by_coordinates` (lines 130-158). -/
def lusasCreateLine (env : LusasEnv) (st : LusasState) (x1 y1 z1 x2 y2 z2 : Coord) :
    Except Exn String × LusasState × List LusasEvent :=
  let r := lusasSetModeller env true st
  match r.1 with
  | .error e => (.error e, r.2.1, r.2.2)
  | .ok false =>
    let v := (r.2.1).versionString
    (.ok s!"Error: Cannot connect on LUSAS version {v}.", r.2.1, r.2.2)
  | .ok true =>
    match env.createLineDb x1 y1 z1 x2 y2 z2 with
    | .ok lid =>
      (.ok s!"Line created successfully with ID {lid}.", r.2.1,
        r.2.2 ++ [.createLineDb])
    | .error _ =>
      (.ok "Error: Failed to create line by coordinates.", r.2.1,
        r.2.2 ++ [.createLineDb])

/-- `Lusas.create_arc_by_coordinates` (lines 218-252). -/
def lusasCreateArc (env : LusasEnv) (st : LusasState)
    (x1 y1 z1 x2 y2 z2 x3 y3 z3 : Coord) :
    Except Exn String × LusasState × List LusasEvent :=
  let r := lusasSetModeller env true st
  match r.1 with
  | .error e => (.error e, r.2.1, r.2.2)
  | .ok false =>
    let v := (r.2.1).versionString
    (.ok s!"Error: Cannot connect on LUSAS version {v}.", r.2.1, r.2.2)
  | .ok true =>
    match env.createArcDb x1 y1 z1 x2 y2 z2 x3 y3 z3 with
    | .ok lid =>
      (.ok s!"Line created successfully with ID {lid}.", r.2.1,
        r.2.2 ++ [.createArcDb])
    | .error _ =>
      (.ok "Error: Failed to create arc line by coordinates.", r.2.1,
        r.2.2 ++ [.createArcDb])

/-- `Lusas.create_spline_by_coordinates` (lines 254-283); note the source
returns "Error: Failed to create spline by points." on failure even in
the coordinates variant. -/
def lusasCreateSpline (env : LusasEnv) (st : LusasState)
    (x y z : List Coord) (closeEnds : Bool) :
    Except Exn String × LusasState × List LusasEvent :=
  let r := lusasSetModeller env true st
  match r.1 with
  | .error e => (.error e, r.2.1, r.2.2)
  | .ok false =>
    let v := (r.2.1).versionString
    (.ok s!"Error: Cannot connect on LUSAS version {v}.", r.2.1, r.2.2)
  | .ok true =>
    match env.createSplineDb x y z closeEnds with
    | .ok lid =>
      (.ok s!"Line created successfully with ID {lid}.", r.2.1,
        r.2.2 ++ [.createSplineDb])
    | .error _ =>
      (.ok "Error: Failed to create spline by points.", r.2.1,
        r.2.2 ++ [.createSplineDb])

/-- `Lusas.create_surface_by_coordinates` (lines 317-342). -/
def lusasCreateSurface (env : LusasEnv) (st : LusasState) (x y z : List Coord) :
    Except Exn String × LusasState × List LusasEvent :=
  let r := lusasSetModeller env true st
  match r.1 with
  | .error e => (.error e, r.2.1, r.2.2)
  | .ok false =>
    let v := (r.2.1).versionString
    (.ok s!"Error: Cannot connect on LUSAS version {v}.", r.2.1, r.2.2)
  | .ok true =>
    match env.createSurfaceDb x y z with
    | .ok sid =>
      (.ok s!"Surface created successfully with ID {sid}.", r.2.1,
        r.2.2 ++ [.createSurfaceDb])
    | .error _ =>
      (.ok "Error: Failed to create surface by coordinates.", r.2.1,
        r.2.2 ++ [.createSurfaceDb])

/-- One item of `Lusas.create_objects_by_coordinates` (lines 420-439):
dispatch on `obj.type.lower()` over {point, straight line, arc, spline,
surface}; the per-item `try` turns any exception (an IndexError from the
coordinate accesses, or one propagating out of `set_modeller` inside the
called operation) into `"Error processing {type}: {str(e)}"`; an unknown
type yields the fixed unsupported-type string without any backend call. -/
def lusasItem (env : LusasEnv) (st : LusasState) (obj : GeomObject) :
    String × LusasState × List LusasEvent :=
  let t := pyLower obj.type
  if t = "point" then
    match obj.xs.get? 0, obj.ys.get? 0, obj.zs.get? 0 with
    | some x, some y, some z =>
      let r := lusasCreatePoint env st x y z
      match r.1 with
      | .ok s => (s, r.2.1, r.2.2)
      | .error e =>
        let m := e.msg
        (s!"Error processing {t}: {m}", r.2.1, r.2.2)
    | _, _, _ => (s!"Error processing {t}: list index out of range", st, [])
  else if t = "straight line" then
    match obj.xs.get? 0, obj.ys.get? 0, obj.zs.get? 0,
        obj.xs.get? 1, obj.ys.get? 1, obj.zs.get? 1 with
    | some x1, some y1, some z1, some x2, some y2, some z2 =>
      let r := lusasCreateLine env st x1 y1 z1 x2 y2 z2
      match r.1 with
      | .ok s => (s, r.2.1, r.2.2)
      | .error e =>
        let m := e.msg
        (s!"Error processing {t}: {m}", r.2.1, r.2.2)
    | _, _, _, _, _, _ => (s!"Error processing {t}: list index out of range", st, [])
  else if t = "arc" then
    match obj.xs.get? 0, obj.ys.get? 0, obj.zs.get? 0,
        obj.xs.get? 1, obj.ys.get? 1, obj.zs.get? 1,
        obj.xs.get? 2, obj.ys.get? 2, obj.zs.get? 2 with
    | some x1, some y1, some z1, some x2, some y2, some z2, some x3, some y3, some z3 =>
      let r := lusasCreateArc env st x1 y1 z1 x2 y2 z2 x3 y3 z3
      match r.1 with
      | .ok s => (s, r.2.1, r.2.2)
      | .error e =>
        let m := e.msg
        (s!"Error processing {t}: {m}", r.2.1, r.2.2)
    | _, _, _, _, _, _, _, _, _ =>
      (s!"Error processing {t}: list index out of range", st, [])
  else if t = "spline" then
    let r := lusasCreateSpline env st obj.xs obj.ys obj.zs false
    match r.1 with
    | .ok s => (s, r.2.1, r.2.2)
    | .error e =>
      let m := e.msg
      (s!"Error processing {t}: {m}", r.2.1, r.2.2)
  else if t = "surface" then
    let r := lusasCreateSurface env st obj.xs obj.ys obj.zs
    match r.1 with
    | .ok s => (s, r.2.1, r.2.2)
    | .error e =>
      let m := e.msg
      (s!"Error processing {t}: {m}", r.2.1, r.2.2)
  else (s!"Error: Unsupported type '{t}'.", st, [])

/-- The item loop of `Lusas.create_objects_by_coordinates` (lines
416-439): progress before each item, one outcome appended per item, loop
continues past failures. -/
def lusasLoop (env : LusasEnv) (st : LusasState) (objs : List GeomObject)
    (i n : Nat) : List String × LusasState × List LusasEvent :=
  match objs with
  | [] => ([], st, [])
  | o :: rest =>
    let r := lusasItem env st o
    let r2 := lusasLoop env r.2.1 rest (i + 1) n
    (r.1 :: r2.1, r2.2.1, .progress i n :: (r.2.2 ++ r2.2.2))

/-- The `finally` block of `Lusas.create_objects_by_coordinates` (lines
442-445): `closeCommandBatch` then `scaleToFit` always run; an exception
in either replaces the pending result and propagates. -/
def lusasFinally (env : LusasEnv) (tentative : BatchRet) (st : LusasState)
    (evs : List LusasEvent) : Except Exn BatchRet × LusasState × List LusasEvent :=
  match env.closeBatch with
  | .error e => (.error e, st, evs ++ [.closeBatch])
  | .ok _ =>
    match env.scaleToFit with
    | .error e => (.error e, st, evs ++ [.closeBatch, .scaleToFit])
    | .ok _ => (.ok tentative, st, evs ++ [.closeBatch, .scaleToFit])

/-- `Lusas.create_objects_by_coordinates` (lines 396-446): connect check
(a failure returns a plain string, not a list), `beginCommandBatch` under
the outer `try` (its exception becomes the single string
`"Error creation objects: {str(e)}"`), the item loop, and the `finally`
block. -/
def lusasBatch (env : LusasEnv) (st : LusasState) (objs : List GeomObject) :
    Except Exn BatchRet × LusasState × List LusasEvent :=
  let r := lusasSetModeller env true st
  match r.1 with
  | .error e => (.error e, r.2.1, r.2.2)
  | .ok false =>
    let v := (r.2.1).versionString
    (.ok (.msg s!"Error: Cannot connect on LUSAS version {v}."), r.2.1, r.2.2)
  | .ok true =>
    match env.beginBatch with
    | .error e =>
      let m := e.msg
      lusasFinally env (.msg s!"Error creation objects: {m}") (r.2.1)
        (r.2.2 ++ [.beginBatch])
    | .ok _ =>
      let r2 := lusasLoop env (r.2.1) objs 0 objs.length
      lusasFinally env (.results r2.1) r2.2.1 (r.2.2 ++ [.beginBatch] ++ r2.2.2)

/-!
## LUSAS sweep extensions (src/Lusas.py lines 664-708)

`sweep_Ext` creates the temporary translation attribute, configures the
geometry data, sweeps, then deletes the attribute.  There is no
`try`/`finally` around the sweep: when `sweep` raises, `deleteAttribute`
is never reached and the temporary attribute stays in the model database.
The caller (`sweep_points` et al.) catches the exception and returns an
error string.
-/

/-- `Lusas.sweep_Ext` (lines 664-680).  The attribute configuration and
geometry-data calls are bookkeeping collapsed into the creation call; an
unknown `hofType` raises ValueError from `types.index`. -/
def sweepExt (env : LusasEnv) (hofType : String) :
    Except Exn Nat × List LusasEvent :=
  if hofType = "Point" ∨ hofType = "Line" ∨ hofType = "Surface" ∨ hofType = "Volume" then
    match env.createTransAttr with
    | .error e => (.error e, [.createTransAttr])
    | .ok a =>
      match env.sweepCall with
      | .error e => (.error e, [.createTransAttr, .sweepCall])
      | .ok os =>
        match env.deleteAttr a with
        | .error e => (.error e, [.createTransAttr, .sweepCall, .deleteAttr a])
        | .ok _ => (.ok os, [.createTransAttr, .sweepCall, .deleteAttr a])
  else (.error { msg := hofType ++ " is not in list" }, [])

/-- `Lusas.sweepRot_Ext` (lines 682-708): the rotation attribute is
selected by the axis (default `z`), then the same sweep-and-delete
sequence as `sweep_Ext`, with the same missing cleanup on a raise. -/
def sweepRotExt (env : LusasEnv) (hofType : String) (aboutAxis : Option String) :
    Except Exn Nat × List LusasEvent :=
  if hofType = "Point" ∨ hofType = "Line" ∨ hofType = "Surface" ∨ hofType = "Volume" then
    let axis := pyLower (aboutAxis.getD "z")
    let mk := if axis = "x" then env.createRotYZ
      else if axis = "y" then env.createRotXZ
      else env.createRotXY
    match mk with
    | .error e => (.error e, [.createRotAttr])
    | .ok a =>
      match env.sweepCall with
      | .error e => (.error e, [.createRotAttr, .sweepCall])
      | .ok os =>
        match env.deleteAttr a with
        | .error e => (.error e, [.createRotAttr, .sweepCall, .deleteAttr a])
        | .ok _ => (.ok os, [.createRotAttr, .sweepCall, .deleteAttr a])
  else (.error { msg := hofType ++ " is not in list" }, [])

/-- `Lusas.sweep_points` (lines 449-471): connect check, then the object
set build (bookkeeping), `sweep_Ext` with `hofType="Line"` and the id
join, all inside `try`; any exception becomes
"Error: Failed to sweep points.". -/
def lusasSweepPoints (env : LusasEnv) (st : LusasState) (_pnts : List Int)
    (_vector : List Coord) : Except Exn String × LusasState × List LusasEvent :=
  let r := lusasSetModeller env true st
  match r.1 with
  | .error e => (.error e, r.2.1, r.2.2)
  | .ok false =>
    let v := (r.2.1).versionString
    (.ok s!"Error: Cannot connect on LUSAS version {v}.", r.2.1, r.2.2)
  | .ok true =>
    let r2 := sweepExt env "Line"
    match r2.1 with
    | .error _ => (.ok "Error: Failed to sweep points.", r.2.1, r.2.2 ++ r2.2)
    | .ok os =>
      match env.getObjectsOf os with
      | .error _ =>
        (.ok "Error: Failed to sweep points.", r.2.1, r.2.2 ++ r2.2 ++ [.getObjects])
      | .ok ids =>
        let idsTxt := String.intercalate "," (ids.map toString)
        (.ok s!"Points swept successfully creating lines with IDs {idsTxt}.",
          r.2.1, r.2.2 ++ r2.2 ++ [.getObjects])

/-!
## Server layer (src/server.py)

The server holds one `feaSoftware` object selected by the configured
name.  Note that server.py calls the adapters through camelCase attribute
names (`createJoint`, `createPoint`, `getUnits`, ...) while both adapter
classes define snake_case methods (`create_joint` at Etabs.py:111,
`create_point` at Lusas.py:77, `get_units`): those attribute lookups
raise AttributeError at call time, which no handler in server.py catches.
-/

/-- The `supportedSoftware` constant (src/server.py line 12). -/
def supportedSoftware : List String := ["LUSAS", "ETABS"]

/-- The backend object held in the module-level `feaSoftware`. -/
inductive FeaSoftware where
  | lusas (st : LusasState)
  | etabs (st : EtabsState)
deriving Repr, DecidableEq

/-- `getSoftwareObj` (src/server.py lines 34-48).  The `try` covers only
the constructor calls (a constructor exception is logged and `None`
returned); for a configured name that is neither LUSAS nor ETABS no
branch assigns `modeller`, and the `return modeller` on line 48 -- outside
the `try` -- raises UnboundLocalError. -/
def getSoftwareObj (cfg : ConfigData) (mkLusas mkEtabs : Except Exn FeaSoftware) :
    Except Exn (Option FeaSoftware) :=
  if cfg.feaName = "LUSAS" then
    match mkLusas with
    | .ok m => .ok (some m)
    | .error _ => .ok none
  else if cfg.feaName = "ETABS" then
    match mkEtabs with
    | .ok m => .ok (some m)
    | .error _ => .ok none
  else .error { msg := "local variable 'modeller' referenced before assignment" }

/-- `connectOnSoftware` (src/server.py lines 50-64): already-connected
check, supported-name check, then `getSoftwareObj` (whose
UnboundLocalError would propagate, though the supported-name check
shields this call site from it). -/
def connectOnSoftware (cfg : ConfigData) (feaSoftware : Option FeaSoftware)
    (mkLusas mkEtabs : Except Exn FeaSoftware) :
    Except Exn (String × Option FeaSoftware) :=
  match feaSoftware with
  | some _ =>
    let n := cfg.feaName
    let v := cfg.feaVersion
    .ok (s!"Already connected on {n} version {v}.", feaSoftware)
  | none =>
    if cfg.feaName ∈ supportedSoftware then
      match getSoftwareObj cfg mkLusas mkEtabs with
      | .error e => .error e
      | .ok none =>
        let n := cfg.feaName
        let v := cfg.feaVersion
        .ok (s!"Failed to connect to the specified software instance ({n}, {v}).", none)
      | .ok (some m) =>
        let n := cfg.feaName
        let v := cfg.feaVersion
        .ok (s!"Connected on {n} version {v}", some m)
    else .ok ("Unsupported software. Please set from: LUSAS, ETABS.", feaSoftware)

/-- `createPoint` (src/server.py lines 85-106).  With no software object
the guard string is returned; otherwise the ETABS/SAP2000 branch looks up
`feaSoftware.createJoint` and the LUSAS branch `feaSoftware.createPoint`,
neither of which the adapter classes define (they define `create_joint`
and `create_point`), so both branches raise AttributeError before any
backend call; for any other configured name, `id` on line 104 is unbound
and UnboundLocalError is raised. -/
def serverCreatePoint (cfg : ConfigData) (feaSoftware : Option FeaSoftware)
    (_x _y _z : Coord) : Except Exn String :=
  match feaSoftware with
  | none => .ok "Open and connect a software instance first."
  | some _ =>
    if cfg.feaName = "ETABS" ∨ cfg.feaName = "SAP2000" then
      .error { msg := "'Etabs' object has no attribute 'createJoint'" }
    else if cfg.feaName = "LUSAS" then
      .error { msg := "'Lusas' object has no attribute 'createPoint'" }
    else .error { msg := "local variable 'id' referenced before assignment" }

/-!
## Concrete environments, states and configurations

Used by the closed evaluation theorems below: a benign backend that
answers every call, and variants where one call fails.
-/

/-- An ETABS attach environment where every COM call succeeds. -/
def etabsAttachEnvB : EtabsAttachEnv :=
  { createHelper := .ok ()
    getObjectFirst := .ok (some 1)
    getObjectSecond := .ok (some 1)
    applicationStart := .ok ()
    initializeNewModel := .ok ()
    newBlank := .ok ()
    getOAPIVersion := .ok 21 }

/-- An ETABS attach environment where helper creation fails (no running
instance reachable). -/
def etabsAttachEnvFail : EtabsAttachEnv :=
  { etabsAttachEnvB with createHelper := .error { msg := "no running instance" } }

/-- An ETABS operation environment where every call succeeds. -/
def etabsEnvB : EtabsEnv :=
  { addCartesian := fun _ _ _ => .ok ("1", 0)
    addFrameByCoord := fun _ _ _ _ _ _ => .ok ("2", 0)
    addAreaByCoord := fun x y z => .ok (x, y, z, "3", 0)
    refreshView := .ok 0
    getPresentUnits := .ok 6
    getAllPoints := .ok (0, [], [], [], [], [])
    getAllAreas :=
      .ok { n := 0, names := [], design := [], f4 := [], delim := [], f6 := [],
            xs := [], ys := [], zs := [], f10 := [] } }

/-- The benign ETABS environment with an out-of-range units code. -/
def etabsEnvUnk : EtabsEnv := { etabsEnvB with getPresentUnits := .ok 99 }

/-- The flat `GetAllAreas` data of the spec example: one surface, a single
delimiter at index 3, coordinates `[0,1,1,0]/[0,0,1,1]/[0,0,0,0]`. -/
def areasC3 : AllAreasData :=
  { n := 1, names := ["S1"], design := ["Slab"], f4 := [], delim := [3], f6 := [],
    xs := [0, 1, 1, 0], ys := [0, 0, 1, 1], zs := [0, 0, 0, 0], f10 := [] }

/-- The benign ETABS environment answering `GetAllAreas` with `areasC3`. -/
def etabsEnvC3 : EtabsEnv := { etabsEnvB with getAllAreas := .ok areasC3 }

/-- An ETABS adapter state holding a handle. -/
def etabsStConn : EtabsState := { sapModel := some 1 }

/-- The ETABS adapter state with no handle. -/
def etabsStNone : EtabsState := { sapModel := none }

/-- A LUSAS environment where every COM call succeeds and a database
exists. -/
def lusasEnvB : LusasEnv :=
  { existsDatabase := fun _ => .ok true
    newProject := fun _ => .ok ()
    getActiveObject := .ok 1
    createPointDb := fun _ _ _ => .ok 1
    createLineDb := fun _ _ _ _ _ _ => .ok 2
    createArcDb := fun _ _ _ _ _ _ _ _ _ => .ok 3
    createSplineDb := fun _ _ _ _ => .ok 4
    createSurfaceDb := fun _ _ _ => .ok 5
    beginBatch := .ok ()
    closeBatch := .ok ()
    scaleToFit := .ok ()
    createTransAttr := .ok 42
    createRotYZ := .ok 43
    createRotXZ := .ok 44
    createRotXY := .ok 45
    sweepCall := .ok 7
    getObjectsOf := fun _ => .ok [10, 11]
    deleteAttr := fun _ => .ok () }

/-- The benign LUSAS environment with a failing backend `sweep` call. -/
def lusasEnvSweepFail : LusasEnv :=
  { lusasEnvB with sweepCall := .error { msg := "sweep failed" } }

/-- The benign LUSAS environment whose held handle raises on the probe
(externally invalidated session). -/
def lusasEnvStale : LusasEnv :=
  { lusasEnvB with existsDatabase := fun h =>
      if h = 9 then .error { msg := "RPC server unavailable" } else .ok true }

/-- The benign LUSAS environment where the probe reports no database. -/
def lusasEnvNoDb : LusasEnv :=
  { lusasEnvB with existsDatabase := fun _ => .ok false }

/-- A LUSAS adapter state holding a handle. -/
def lusasStConn : LusasState := { versionString := "21.1", modeller := some 1 }

/-- A LUSAS adapter state holding the handle that `lusasEnvStale`
invalidates. -/
def lusasStStale : LusasState := { versionString := "21.1", modeller := some 9 }

/-- A configuration selecting ETABS. -/
def cfgEtabs : ConfigData :=
  { serverName := "FEA MCP", serverVersion := "1.0.0", feaSoftware := "ETABS",
    feaVersionNum := 21.1 }

/-- A configuration whose target-software name is unsupported. -/
def cfgSap : ConfigData :=
  { serverName := "FEA MCP", serverVersion := "1.0.0", feaSoftware := "SAP2000",
    feaVersionNum := 25 }

/-- The per-item outcome sequence of the LUSAS batch loop: the state is
threaded from item to item exactly as the loop threads it. -/
def lusasOutcomes (env : LusasEnv) (st : LusasState) (objs : List GeomObject) :
    List String :=
  match objs with
  | [] => []
  | o :: rest => (lusasItem env st o).1 :: lusasOutcomes env (lusasItem env st o).2.1 rest

/-- The longest common prefix of two character lists. -/
def commonPre : List Char → List Char → List Char
  | a :: as, b :: bs => if a = b then a :: commonPre as bs else []
  | _, _ => []

/-!
# Theorems

Helper lemmas first, then one theorem per claim (with a closed witness
where the claim theorem carries hypotheses).
-/

/-- Slicing with a moving cursor equals taking each surface up to and
including its delimiter and dropping everything before its start. -/
lemma sliceRings_eq_from (xs : List Coord) (delim : List Nat) (i : Nat) :
    sliceRings xs delim i =
      (List.range delim.length).map
        (fun k => (xs.take (delim.getD k 0 + 1)).drop (ringStartFrom i delim k)) := by
  induction delim generalizing i with
  | nil => simp [sliceRings]
  | cons j rest ih =>
    simp only [sliceRings, List.length_cons, List.range_succ_eq_map, List.map_cons,
      List.map_map]
    refine congrArg₂ List.cons ?_ ?_
    · show (xs.drop i).take (j + 1 - i) = (xs.take (j + 1)).drop i
      rw [List.drop_take]
    · rw [ih (j + 1)]
      refine List.map_congr_left ?_
      intro k _
      cases k with
      | zero => rfl
      | succ k => rfl

/-- `ringStartFrom` at cursor zero is `ringStart`. -/
lemma ringStartFrom_zero (delim : List Nat) (k : Nat) :
    ringStartFrom 0 delim k = ringStart delim k := by
  cases k <;> rfl

/-- When the area loop succeeds, the x-coordinate rings it returns are
exactly the cursor slices of the flat array. -/
lemma etabsAreasList_xs (names : List String) (xs ys zs : List Coord)
    (delim : List Nat) : ∀ (i c : Nat) (gs : List GeomObject),
    etabsAreasList names xs ys zs delim i c = .ok gs →
    gs.map GeomObject.xs = sliceRings xs delim i := by
  induction delim with
  | nil =>
    intro i c gs h
    simp only [etabsAreasList] at h
    cases h
    simp [sliceRings]
  | cons j rest ih =>
    intro i c gs h
    simp only [etabsAreasList] at h
    cases hn : names.get? c with
    | none => rw [hn] at h; cases h
    | some nm =>
      rw [hn] at h
      cases hr : etabsAreasList names xs ys zs rest (j + 1) (c + 1) with
      | error e => rw [hr] at h; cases h
      | ok gs' =>
        rw [hr] at h
        cases h
        simp only [List.map_cons, sliceRings]
        exact congrArg _ (ih (j + 1) (c + 1) gs' hr)

/-- C3: the ETABS surface enumeration recovers each ring by slicing from
the previous delimiter plus one up to and including the current delimiter
and then advancing the cursor (first conjunct: cursor slicing equals the
take-then-drop reading; second: a successful area loop returns exactly
those slices); in particular, for the flat arrays `[0,1,1,0]/[0,0,1,1]/
[0,0,0,0]` with a single delimiter at index 3, `get_areas` reconstructs
one surface with exactly the 4 input points in order. -/
theorem c3_theorem :
    (∀ (xs : List Coord) (delim : List Nat),
        sliceRings xs delim 0 =
          (List.range delim.length).map
            (fun k => (xs.take (delim.getD k 0 + 1)).drop (ringStart delim k))) ∧
    (∀ (names : List String) (xs ys zs : List Coord) (delim : List Nat)
        (gs : List GeomObject),
        etabsAreasList names xs ys zs delim 0 0 = .ok gs →
        gs.map GeomObject.xs = sliceRings xs delim 0) ∧
    (etabsGetAreas etabsAttachEnvB etabsEnvC3 etabsStConn).1 =
      .ok (.geoms [⟨"surface", [0, 1, 1, 0], [0, 0, 1, 1], [0, 0, 0, 0], "S1", false⟩]) := by
  refine ⟨?_, ?_, ?_⟩
  · intro xs delim
    rw [sliceRings_eq_from]
    exact List.map_congr_left fun k _ => by rw [ringStartFrom_zero]
  · intro names xs ys zs delim gs h
    exact etabsAreasList_xs names xs ys zs delim 0 0 gs h
  · rfl

/-- C3 witness: the second conjunct applied to the concrete spec example,
with its hypothesis discharged by evaluation. -/
theorem c3_witness :
    ([⟨"surface", [0, 1, 1, 0], [0, 0, 1, 1], [0, 0, 0, 0], "S1", false⟩] :
        List GeomObject).map GeomObject.xs =
      sliceRings [0, 1, 1, 0] [3] 0 :=
  c3_theorem.2.1 ["S1"] [0, 1, 1, 0] [0, 0, 1, 1] [0, 0, 0, 0] [3] _ rfl

/-- C10: when configuration loading fails with any exception, the Config
constructor does not fail and falls back to the built-in default that
selects LUSAS at version 21.1. -/
theorem c10_theorem (e : Exn) :
    (configInit (.error e)).feaName = "LUSAS" ∧
      (configInit (.error e)).feaVersion = "21.1" := by
  have hd : configInit (.error e) = defaultConfigData := rfl
  rw [hd]
  constructor
  · decide
  · have hf : (⌊(21.1 : ℚ) * 10 + 1 / 2⌋ : ℤ) = 211 := by norm_num
    show formatFixed1 (21.1 : ℚ) = "21.1"
    simp only [formatFixed1, hf]
    decide

/-- C5 (code bug evaluation): with the unsupported configured name
SAP2000, the module-level `getSoftwareObj` call raises UnboundLocalError
(the `return modeller` on server.py line 48 runs with `modeller` never
assigned), so the process crashes at import instead of rejecting the
name; the rejection string itself is produced one layer up by
`connectOnSoftware`, which with no software object held returns the fixed
enumerated-choices error without touching either backend constructor. -/
theorem c5_theorem :
    getSoftwareObj cfgSap (.ok (FeaSoftware.etabs etabsStConn))
        (.ok (FeaSoftware.etabs etabsStConn)) =
      .error { msg := "local variable 'modeller' referenced before assignment" } ∧
    connectOnSoftware cfgSap none (.ok (FeaSoftware.etabs etabsStConn))
        (.ok (FeaSoftware.etabs etabsStConn)) =
      .ok ("Unsupported software. Please set from: LUSAS, ETABS.", none) := by
  exact ⟨rfl, rfl⟩

/-- With a held handle, `create_joint` leaves the adapter state
unchanged. -/
lemma etabsCreateJoint_state (aenv : EtabsAttachEnv) (env : EtabsEnv) (h : Handle)
    (x y z : Coord) :
    (etabsCreateJoint aenv env { sapModel := some h } x y z).2.1 =
      ({ sapModel := some h } : EtabsState) := by
  simp only [etabsCreateJoint, etabsSetModeller]
  cases env.addCartesian x y z with
  | error e => rfl
  | ok p =>
    obtain ⟨nm, ret⟩ := p
    by_cases hr : ret ≠ 0
    · simp [hr]
    · cases env.refreshView <;> simp [hr]

/-- With a held handle, `create_frame` leaves the adapter state
unchanged. -/
lemma etabsCreateFrame_state (aenv : EtabsAttachEnv) (env : EtabsEnv) (h : Handle)
    (x1 y1 z1 x2 y2 z2 : Coord) :
    (etabsCreateFrame aenv env { sapModel := some h } x1 y1 z1 x2 y2 z2).2.1 =
      ({ sapModel := some h } : EtabsState) := by
  simp only [etabsCreateFrame, etabsSetModeller]
  cases env.addFrameByCoord x1 y1 z1 x2 y2 z2 with
  | error e => rfl
  | ok p =>
    obtain ⟨nm, ret⟩ := p
    by_cases hr : ret ≠ 0
    · simp [hr]
    · cases env.refreshView <;> simp [hr]

/-- With a held handle, `create_area` leaves the adapter state
unchanged. -/
lemma etabsCreateArea_state (aenv : EtabsAttachEnv) (env : EtabsEnv) (h : Handle)
    (x y z : List Coord) :
    (etabsCreateArea aenv env { sapModel := some h } x y z).2.1 =
      ({ sapModel := some h } : EtabsState) := by
  simp only [etabsCreateArea, etabsSetModeller]
  cases env.addAreaByCoord x y z with
  | error e => rfl
  | ok p =>
    obtain ⟨a1, a2, a3, nm, ret⟩ := p
    by_cases hr : ret ≠ 0
    · simp [hr]
    · cases env.refreshView <;> simp [hr]

/-- With a held handle, every batch item leaves the ETABS adapter state
unchanged. -/
lemma etabsItem_state (aenv : EtabsAttachEnv) (env : EtabsEnv) (h : Handle)
    (obj : GeomObject) :
    (etabsItem aenv env { sapModel := some h } obj).2.1 =
      ({ sapModel := some h } : EtabsState) := by
  simp only [etabsItem]
  split
  · cases h0 : obj.xs.get? 0 with
    | none => simp [h0]
    | some x =>
      cases h1 : obj.ys.get? 0 with
      | none => simp [h0, h1]
      | some y =>
        cases h2 : obj.zs.get? 0 with
        | none => simp [h0, h1, h2]
        | some z =>
          simp only [h0, h1, h2]
          cases hc : (etabsCreateJoint aenv env { sapModel := some h } x y z).1 <;>
            simp [hc, etabsCreateJoint_state aenv env h x y z]
  · split
    · cases h0 : obj.xs.get? 0 with
      | none => simp [h0]
      | some x1 =>
        cases h1 : obj.ys.get? 0 with
        | none => simp [h0, h1]
        | some y1 =>
          cases h2 : obj.zs.get? 0 with
          | none => simp [h0, h1, h2]
          | some z1 =>
            cases h3 : obj.xs.get? 1 with
            | none => simp [h0, h1, h2, h3]
            | some x2 =>
              cases h4 : obj.ys.get? 1 with
              | none => simp [h0, h1, h2, h3, h4]
              | some y2 =>
                cases h5 : obj.zs.get? 1 with
                | none => simp [h0, h1, h2, h3, h4, h5]
                | some z2 =>
                  simp only [h0, h1, h2, h3, h4, h5]
                  cases hc :
                      (etabsCreateFrame aenv env { sapModel := some h }
                        x1 y1 z1 x2 y2 z2).1 <;>
                    simp [hc, etabsCreateFrame_state aenv env h x1 y1 z1 x2 y2 z2]
    · split
      · cases hc :
            (etabsCreateArea aenv env { sapModel := some h } obj.xs obj.ys obj.zs).1 <;>
          simp [hc, etabsCreateArea_state aenv env h obj.xs obj.ys obj.zs]
      · rfl

/-- With a held handle, the ETABS batch loop returns exactly one outcome
per request, each computed from that request at the same state. -/
lemma etabsLoop_map (aenv : EtabsAttachEnv) (env : EtabsEnv) (h : Handle) :
    ∀ (objs : List GeomObject) (i n : Nat),
    (etabsLoop aenv env { sapModel := some h } objs i n).1 =
      objs.map (fun o => (etabsItem aenv env { sapModel := some h } o).1) := by
  intro objs
  induction objs with
  | nil => intro i n; rfl
  | cons o rest ih =>
    intro i n
    simp only [etabsLoop, List.map_cons]
    rw [etabsItem_state aenv env h o]
    exact congrArg _ (ih (i + 1) n)

/-- With a held handle, the ETABS batch returns `.ok` of the per-item
outcome list. -/
lemma etabsBatch_ok (aenv : EtabsAttachEnv) (env : EtabsEnv) (h : Handle)
    (objs : List GeomObject) :
    (etabsBatch aenv env { sapModel := some h } objs).1 =
      .ok (.results
        (objs.map (fun o => (etabsItem aenv env { sapModel := some h } o).1))) := by
  show Except.ok
      (BatchRet.results
        (etabsLoop aenv env { sapModel := some h } objs 0 objs.length).1) = _
  rw [etabsLoop_map aenv env h objs 0 objs.length]

/-- The LUSAS batch loop returns the state-threaded outcome sequence. -/
lemma lusasLoop_outcomes (env : LusasEnv) :
    ∀ (objs : List GeomObject) (st : LusasState) (i n : Nat),
    (lusasLoop env st objs i n).1 = lusasOutcomes env st objs := by
  intro objs
  induction objs with
  | nil => intro st i n; rfl
  | cons o rest ih =>
    intro st i n
    simp only [lusasLoop, lusasOutcomes]
    exact congrArg _ (ih (lusasItem env st o).2.1 (i + 1) n)

/-- The outcome sequence has one entry per request. -/
lemma lusasOutcomes_length (env : LusasEnv) :
    ∀ (objs : List GeomObject) (st : LusasState),
    (lusasOutcomes env st objs).length = objs.length := by
  intro objs
  induction objs with
  | nil => intro st; rfl
  | cons o rest ih =>
    intro st
    simp only [lusasOutcomes, List.length_cons]
    exact congrArg _ (ih (lusasItem env st o).2.1)

/-- C1 counterexample: with ETABS configured, a connected software object
and a perfectly healthy backend, the transport-facing `createPoint`
raises (AttributeError from the stale `createJoint` attribute name), so
an exception does cross the operation boundary to the transport layer,
refuting the claim that every operation returns a string and never
throws. -/
theorem c1_counterexample :
    serverCreatePoint cfgEtabs (some (FeaSoftware.etabs etabsStConn)) 1 2 3 =
      .error { msg := "'Etabs' object has no attribute 'createJoint'" } := by
  rfl

/-- C1 amended: the adapter-level operation bodies do convert backend
exceptions to strings -- with a held handle `Etabs.get_points` and
`Etabs.create_objects_by_coordinates` return a value for every backend
behaviour, and `Lusas.create_point` returns a string whenever its
connection check returns -- but the transport-facing wrappers and the
unguarded ETABS primitives can still raise. -/
theorem c1_theorem :
    (∀ (aenv : EtabsAttachEnv) (env : EtabsEnv) (h : Handle),
        ∃ ret, (etabsGetPoints aenv env { sapModel := some h }).1 = .ok ret) ∧
    (∀ (aenv : EtabsAttachEnv) (env : EtabsEnv) (h : Handle) (objs : List GeomObject),
        ∃ rs, (etabsBatch aenv env { sapModel := some h } objs).1 =
          .ok (.results rs)) ∧
    (∀ (env : LusasEnv) (st st1 : LusasState) (b : Bool) (evs : List LusasEvent)
        (x y z : Coord),
        lusasSetModeller env true st = (.ok b, st1, evs) →
        ∃ s, (lusasCreatePoint env st x y z).1 = .ok s) := by
  refine ⟨?_, ?_, ?_⟩
  · intro aenv env h
    cases hgp : env.getAllPoints with
    | error e =>
      exact ⟨.msg "Error: Failed getting point.",
        by simp [etabsGetPoints, etabsSetModeller, hgp]⟩
    | ok d =>
      obtain ⟨n, names, xs, ys, zs, csys⟩ := d
      cases hpl : etabsPointsList n names xs ys zs with
      | error e =>
        exact ⟨.msg "Error: Failed getting point.",
          by simp [etabsGetPoints, etabsSetModeller, hgp, hpl]⟩
      | ok gs =>
        exact ⟨.geoms gs, by simp [etabsGetPoints, etabsSetModeller, hgp, hpl]⟩
  · exact fun aenv env h objs =>
      ⟨objs.map (fun o => (etabsItem aenv env { sapModel := some h } o).1),
        etabsBatch_ok aenv env h objs⟩
  · intro env st st1 b evs x y z hc
    cases b with
    | false =>
      refine ⟨s!"Error: Cannot connect on LUSAS version {st1.versionString}.", ?_⟩
      simp [lusasCreatePoint, hc]
    | true =>
      cases hp : env.createPointDb x y z with
      | error e =>
        exact ⟨"Error: Failed to create point.", by simp [lusasCreatePoint, hc, hp]⟩
      | ok pid =>
        exact ⟨s!"Point created successfully with ID {pid}.",
          by simp [lusasCreatePoint, hc, hp]⟩

/-- C1 witness: the LUSAS conjunct at a concrete connected environment,
its connection-check hypothesis discharged by evaluation. -/
theorem c1_witness :
    ∃ s, (lusasCreatePoint lusasEnvB lusasStConn 1 2 3).1 = .ok s :=
  c1_theorem.2.2 lusasEnvB lusasStConn lusasStConn true [.existsDatabase] 1 2 3 rfl

/-- C2: with a connected session (for ETABS a held handle; for LUSAS a
connection check that returns true, plus command-batch open/close and
view-fit calls that do not themselves raise), the batch creation returns
one outcome string per request, index-aligned, for every backend
behaviour of the per-item creation calls -- so one failing item never
aborts the rest. -/
theorem c2_theorem :
    (∀ (aenv : EtabsAttachEnv) (env : EtabsEnv) (h : Handle) (objs : List GeomObject),
        (etabsBatch aenv env { sapModel := some h } objs).1 =
            .ok (.results
              (objs.map (fun o => (etabsItem aenv env { sapModel := some h } o).1))) ∧
          (objs.map
              (fun o => (etabsItem aenv env { sapModel := some h } o).1)).length =
            objs.length) ∧
    (∀ (env : LusasEnv) (st st1 : LusasState) (evs : List LusasEvent)
        (objs : List GeomObject),
        lusasSetModeller env true st = (.ok true, st1, evs) →
        env.beginBatch = .ok () → env.closeBatch = .ok () → env.scaleToFit = .ok () →
        (lusasBatch env st objs).1 = .ok (.results (lusasOutcomes env st1 objs)) ∧
          (lusasOutcomes env st1 objs).length = objs.length) := by
  constructor
  · intro aenv env h objs
    exact ⟨etabsBatch_ok aenv env h objs, List.length_map objs _⟩
  · intro env st st1 evs objs hc hb hcl hsf
    constructor
    · simp only [lusasBatch, hc, hb, lusasFinally, hcl, hsf]
      rw [lusasLoop_outcomes]
    · exact lusasOutcomes_length env objs st1

/-- C2 witness: the LUSAS conjunct at a concrete session with a
two-request batch (one creatable point, one unsupported type). -/
theorem c2_witness :
    (lusasBatch lusasEnvB lusasStConn
          [⟨"point", [1], [2], [3], "", false⟩, ⟨"volume", [], [], [], "", false⟩]).1 =
        .ok (.results (lusasOutcomes lusasEnvB lusasStConn
          [⟨"point", [1], [2], [3], "", false⟩, ⟨"volume", [], [], [], "", false⟩])) ∧
      (lusasOutcomes lusasEnvB lusasStConn
          [⟨"point", [1], [2], [3], "", false⟩,
            ⟨"volume", [], [], [], "", false⟩]).length =
        ([⟨"point", [1], [2], [3], "", false⟩,
          ⟨"volume", [], [], [], "", false⟩] : List GeomObject).length :=
  c2_theorem.2 lusasEnvB lusasStConn lusasStConn [.existsDatabase]
    [⟨"point", [1], [2], [3], "", false⟩, ⟨"volume", [], [], [], "", false⟩]
    rfl rfl rfl rfl

/-- C4: a request whose lower-cased type is outside the backend's
supported set gets exactly the fixed unsupported-type string in its slot,
with no backend call made for that slot and the adapter state unchanged,
on both backends; and the ETABS batch still produces an outcome for every
slot. -/
theorem c4_theorem :
    (∀ (aenv : EtabsAttachEnv) (env : EtabsEnv) (h : Handle) (obj : GeomObject),
        pyLower obj.type ∉ (["point", "line", "surface"] : List String) →
        etabsItem aenv env { sapModel := some h } obj =
          (s!"Error: Unsupported type '{pyLower obj.type}'.",
            { sapModel := some h }, [])) ∧
    (∀ (env : LusasEnv) (st : LusasState) (obj : GeomObject),
        pyLower obj.type ∉
            (["point", "straight line", "arc", "spline", "surface"] : List String) →
        lusasItem env st obj =
          (s!"Error: Unsupported type '{pyLower obj.type}'.", st, [])) ∧
    (∀ (aenv : EtabsAttachEnv) (env : EtabsEnv) (h : Handle) (objs : List GeomObject),
        (etabsBatch aenv env { sapModel := some h } objs).1 =
          .ok (.results
            (objs.map (fun o => (etabsItem aenv env { sapModel := some h } o).1)))) := by
  refine ⟨?_, ?_, ?_⟩
  · intro aenv env h obj ht
    simp only [List.mem_cons, List.not_mem_nil, or_false, not_or] at ht
    obtain ⟨h1, h2, h3⟩ := ht
    simp only [etabsItem]
    rw [if_neg h1, if_neg h2, if_neg h3]
  · intro env st obj ht
    simp only [List.mem_cons, List.not_mem_nil, or_false, not_or] at ht
    obtain ⟨h1, h2, h3, h4, h5⟩ := ht
    simp only [lusasItem]
    rw [if_neg h1, if_neg h2, if_neg h3, if_neg h4, if_neg h5]
  · exact etabsBatch_ok

/-- C4 witness: the ETABS conjunct at the unsupported type "Volume"
(case-insensitively outside {point, line, surface}). -/
theorem c4_witness :
    etabsItem etabsAttachEnvB etabsEnvB { sapModel := some 1 }
        ⟨"Volume", [], [], [], "", false⟩ =
      ("Error: Unsupported type 'volume'.", { sapModel := some 1 }, []) :=
  c4_theorem.1 etabsAttachEnvB etabsEnvB 1 ⟨"Volume", [], [], [], "", false⟩
    (by decide)

/-- C6 counterexample: on ETABS, with a held session handle and
`createModel = true`, the connection check returns true immediately and
its trace contains no `InitializeNewModel` and no `NewBlank` call -- the
held-handle initialization is dead code behind `if False and createModel`
-- so no blank model is initialized, refuting "this holds on both
backends". -/
theorem c6_counterexample :
    etabsSetModeller etabsAttachEnvB true etabsStConn = (true, etabsStConn, []) ∧
      EtabsEvent.initializeNewModel ∉
        (etabsSetModeller etabsAttachEnvB true etabsStConn).2.2 ∧
      EtabsEvent.newBlank ∉ (etabsSetModeller etabsAttachEnvB true etabsStConn).2.2 := by
  exact ⟨rfl, by decide, by decide⟩

/-- C6 amended: on LUSAS, when the held handle reports no open database
and `create_if_missing` holds, a new project is created before the check
returns true; on ETABS a held handle short-circuits the check and nothing
is initialized. -/
theorem c6_theorem :
    (∀ (env : LusasEnv) (v : String) (h : Handle),
        env.existsDatabase h = .ok false → env.newProject h = .ok () →
        lusasSetModeller env true { versionString := v, modeller := some h } =
          (.ok true, { versionString := v, modeller := some h },
            [.existsDatabase, .newProject])) ∧
    (∀ (aenv : EtabsAttachEnv) (cm : Bool) (h : Handle),
        etabsSetModeller aenv cm { sapModel := some h } =
          (true, { sapModel := some h }, [])) := by
  constructor
  · intro env v h hdb hnp
    simp [lusasSetModeller, hdb, hnp]
  · intro aenv cm h
    rfl

/-- C6 witness: the LUSAS conjunct at a concrete no-database session. -/
theorem c6_witness :
    lusasSetModeller lusasEnvNoDb true { versionString := "21.1", modeller := some 1 } =
      (.ok true, { versionString := "21.1", modeller := some 1 },
        [.existsDatabase, .newProject]) :=
  c6_theorem.1 lusasEnvNoDb "21.1" 1 rfl rfl

/-- C7 counterexample: when the backend `sweep` call raises, the swept
operation returns its error string but the temporary translation
attribute created for the sweep (id 42 here) is never deleted -- the
trace holds the creation call and no `deleteAttribute` call -- refuting
"deleted ... regardless of outcome, even when the backend sweep call
raises". -/
theorem c7_counterexample :
    lusasSweepPoints lusasEnvSweepFail lusasStConn [1] [0, 0, 1] =
        (.ok "Error: Failed to sweep points.", lusasStConn,
          [.existsDatabase, .createTransAttr, .sweepCall]) ∧
      LusasEvent.deleteAttr 42 ∉
        (lusasSweepPoints lusasEnvSweepFail lusasStConn [1] [0, 0, 1]).2.2 ∧
      LusasEvent.createTransAttr ∈
        (lusasSweepPoints lusasEnvSweepFail lusasStConn [1] [0, 0, 1]).2.2 := by
  exact ⟨rfl, by decide, by decide⟩

/-- C7 amended: the temporary transformation attribute is deleted when
the backend sweep call returns (for both the translation and the
rotation variant); when the sweep call raises, the attribute-deletion
call never happens (the exception is converted to an error string by the
calling sweep operation). -/
theorem c7_theorem :
    (∀ (env : LusasEnv) (t : String) (a os : Nat),
        (t = "Point" ∨ t = "Line" ∨ t = "Surface" ∨ t = "Volume") →
        env.createTransAttr = .ok a → env.sweepCall = .ok os →
        LusasEvent.deleteAttr a ∈ (sweepExt env t).2) ∧
    (∀ (env : LusasEnv) (t : String) (a : Nat) (e : Exn),
        (t = "Point" ∨ t = "Line" ∨ t = "Surface" ∨ t = "Volume") →
        env.createTransAttr = .ok a → env.sweepCall = .error e →
        (sweepExt env t).2 = [.createTransAttr, .sweepCall]) ∧
    (∀ (env : LusasEnv) (t : String) (a os : Nat),
        (t = "Point" ∨ t = "Line" ∨ t = "Surface" ∨ t = "Volume") →
        env.createRotXY = .ok a → env.sweepCall = .ok os →
        LusasEvent.deleteAttr a ∈ (sweepRotExt env t none).2) := by
  refine ⟨?_, ?_, ?_⟩
  · intro env t a os ht ha hs
    cases hd : env.deleteAttr a with
    | error e =>
      rcases ht with h | h | h | h <;> subst h <;> simp [sweepExt, ha, hs, hd]
    | ok u =>
      rcases ht with h | h | h | h <;> subst h <;> simp [sweepExt, ha, hs, hd]
  · intro env t a e ht ha hs
    rcases ht with h | h | h | h <;> subst h <;> simp [sweepExt, ha, hs]
  · intro env t a os ht hxy hs
    have hz : pyLower "z" = "z" := by decide
    cases hd : env.deleteAttr a with
    | error e =>
      rcases ht with h | h | h | h <;> subst h <;>
        simp [sweepRotExt, hz, hxy, hs, hd]
    | ok u =>
      rcases ht with h | h | h | h <;> subst h <;>
        simp [sweepRotExt, hz, hxy, hs, hd]

/-- C7 witness: the translation conjunct at the benign environment. -/
theorem c7_witness :
    LusasEvent.deleteAttr 42 ∈ (sweepExt lusasEnvB "Line").2 :=
  c7_theorem.1 lusasEnvB "Line" 42 7 (Or.inr (Or.inl rfl)) rfl rfl

/-- C8 counterexample: the connectivity failure of `connectOnSoftware` is
an error outcome that does not carry the "Error" prefix every
adapter-level failure string carries, so no single fixed prefix
distinguishes every error result from success strings. -/
theorem c8_counterexample :
    connectOnSoftware cfgEtabs none (.error { msg := "no instance" })
        (.error { msg := "no instance" }) =
      .ok ("Failed to connect to the specified software instance (ETABS, 21.1).",
        none) ∧
    pyStartsWith "Failed to connect to the specified software instance (ETABS, 21.1)."
        "Error" = false := by
  constructor
  · have hf : (⌊(21.1 : ℚ) * 10 + 1 / 2⌋ : ℤ) = 211 := by norm_num
    have hv : cfgEtabs.feaVersion = "21.1" := by
      show formatFixed1 (21.1 : ℚ) = "21.1"
      simp only [formatFixed1, hf]
      decide
    have hn : cfgEtabs.feaName = "ETABS" := by decide
    simp only [connectOnSoftware, getSoftwareObj, hn, hv]
    rfl
  · decide

/-- C8 amended: adapter-level failures (such as the units query's
connect failure) carry the "Error" prefix and success strings do not,
but the server connectivity failure and the out-of-range units result
"Unknown units" carry no such prefix, and the error strings share no
nonempty common prefix at all. -/
theorem c8_theorem :
    (etabsGetUnits etabsAttachEnvFail etabsEnvB etabsStNone).1 =
        .ok "Error: Cannot connect on ETABS." ∧
    pyStartsWith "Error: Cannot connect on ETABS." "Error" = true ∧
    (etabsGetUnits etabsAttachEnvB etabsEnvUnk etabsStConn).1 = .ok "Unknown units" ∧
    pyStartsWith "Unknown units" "Error" = false ∧
    (etabsGetUnits etabsAttachEnvB etabsEnvB etabsStConn).1 =
        .ok "Units of force, length and temperature are set to kN, m, C" ∧
    pyStartsWith "Units of force, length and temperature are set to kN, m, C"
        "Error" = false ∧
    commonPre ("Error: Cannot connect on ETABS.").data
        ("Failed to connect to the specified software instance (ETABS, 21.1).").data =
      [] ∧
    commonPre ("Unknown units").data ("Error: Cannot connect on ETABS.").data = [] := by
  refine ⟨rfl, by decide, rfl, by decide, rfl, by decide, by decide, by decide⟩

/-- Each branch of the LUSAS reattachment path makes exactly one
`GetActiveObject` call beyond those already recorded. -/
lemma lusasAttach_count (env : LusasEnv) (cm : Bool) (st : LusasState)
    (evs : List LusasEvent) :
    ((lusasAttach env cm st evs).2.2).count LusasEvent.getActiveObject =
      evs.count LusasEvent.getActiveObject + 1 := by
  cases hg : env.getActiveObject with
  | error e => simp [lusasAttach, hg, List.count_append]
  | ok h =>
    cases hd : env.existsDatabase h with
    | error e => simp [lusasAttach, hg, hd, List.count_append]
    | ok b =>
      cases b <;> cases cm <;> cases hn : env.newProject h <;>
        simp [lusasAttach, hg, hd, hn, List.count_append]

/-- C9 counterexample: on ETABS, a held handle -- stale or not -- is
returned as valid without any probe or reattachment: the connection check
performs zero COM calls, so an operation against an externally
invalidated handle sees zero reattachment attempts, not exactly one. -/
theorem c9_counterexample :
    etabsSetModeller etabsAttachEnvB true { sapModel := some 7 } =
        (true, { sapModel := some 7 }, []) ∧
      ((etabsSetModeller etabsAttachEnvB true { sapModel := some 7 }).2.2).count
          EtabsEvent.getObject = 0 := by
  exact ⟨rfl, by decide⟩

/-- C9 amended: on LUSAS a held handle whose probe raises leads to
exactly one reattachment attempt (and no call of `set_modeller` ever
makes more than one); on ETABS a held handle is never probed and no
reattachment happens at all. -/
theorem c9_theorem :
    (∀ (env : LusasEnv) (v : String) (h : Handle) (e : Exn) (cm : Bool),
        env.existsDatabase h = .error e →
        ((lusasSetModeller env cm
              { versionString := v, modeller := some h }).2.2).count
            LusasEvent.getActiveObject = 1) ∧
    (∀ (env : LusasEnv) (cm : Bool) (st : LusasState),
        ((lusasSetModeller env cm st).2.2).count LusasEvent.getActiveObject ≤ 1) ∧
    (∀ (aenv : EtabsAttachEnv) (cm : Bool) (h : Handle),
        etabsSetModeller aenv cm { sapModel := some h } =
          (true, { sapModel := some h }, [])) := by
  refine ⟨?_, ?_, ?_⟩
  · intro env v h e cm hp
    simp [lusasSetModeller, hp, lusasAttach_count]
  · intro env cm st
    cases hm : st.modeller with
    | none => simp [lusasSetModeller, hm, lusasAttach_count]
    | some h =>
      cases hd : env.existsDatabase h with
      | error e => simp [lusasSetModeller, hm, hd, lusasAttach_count]
      | ok b =>
        cases b <;> cases cm <;> cases hn : env.newProject h <;>
          simp [lusasSetModeller, hm, hd, hn, lusasAttach_count]
  · intro aenv cm h
    rfl

/-- C9 witness: the LUSAS conjunct at a concrete environment whose held
handle raises on the probe. -/
theorem c9_witness :
    ((lusasSetModeller lusasEnvStale true lusasStStale).2.2).count
        LusasEvent.getActiveObject = 1 :=
  c9_theorem.1 lusasEnvStale "21.1" 9 { msg := "RPC server unavailable" } true rfl

end FEA
